import Mathlib

/-!
Verification of the Command Automation Engine of the Hybrid LLM Desktop
Assistant (`Backend/Automation.py`), as a shallow embedding in Lean 4.

The embedding models the pure control flow of the Python functions
`CloseApp`, `OpenApp`, `adjust_brightness`, `ExecuteCommand`,
`translate_and_execute` and `Automation`.  Side effects (subprocess calls,
window messages, keystrokes) are recorded as explicit `Effect` values, and
the outcome of each OS interaction that the Python code wraps in
`try/except` is supplied by an environment record, so that every execution
path of the source is a path of the model.
-/

/-- Python's `str.lower()` (the names in play are ASCII). -/
def pyLower (s : String) : String :=
  String.mk (s.toList.map Char.toLower)

/-- Whitespace as recognized by Python's `str.strip()`. -/
def isPySpace (c : Char) : Bool :=
  c == ' ' || c == '\t' || c == '\n' || c == '\r' || c == '\x0b' || c == '\x0c'

/-- Python's `str.strip()`: remove leading and trailing whitespace. -/
def pyStrip (s : String) : String :=
  String.mk (((s.toList.dropWhile isPySpace).reverse.dropWhile isPySpace).reverse)

/-- Substring occurrence on character lists: does `pat` occur as a
contiguous infix of the list?  Models Python's `pat in s` for strings. -/
def listOccurs (pat : List Char) : List Char → Bool
  | [] => pat.isEmpty
  | c :: rest => pat.isPrefixOf (c :: rest) || listOccurs pat rest

/-- Python's substring test `pat in s`. -/
def strContains (s pat : String) : Bool :=
  listOccurs pat.toList s.toList

/-- Python's `s.endswith(suffix)`. -/
def strEndsWith (s suffix : String) : Bool :=
  suffix.toList.isSuffixOf s.toList

/-- Python's `s.startswith(p)`. -/
def strStarts (s p : String) : Bool :=
  p.toList.isPrefixOf s.toList

/-- Python's `s.removeprefix(p)`: drop `p` when it is a leading prefix,
otherwise return `s` unchanged. -/
def removeLeading (s p : String) : String :=
  if p.toList.isPrefixOf s.toList then String.mk (s.toList.drop p.toList.length) else s

/-!
## Application Terminator (`CloseApp`, Automation.py lines 251-356)
-/

/-- One observable OS side effect of a `CloseApp` run. -/
inductive Effect where
  /-- The PowerShell `Shell.Application ... Quit()` call that closes all
  File Explorer windows (line 263). -/
  | shellQuitExplorer : Effect
  /-- A `taskkill /f /im <image>` invocation (lines 274 and 351). -/
  | taskkill (image : String) : Effect
  /-- Focusing a browser window and sending ctrl+w (lines 325-328). -/
  | closeTab (title : String) : Effect
  /-- Posting WM_CLOSE to a window (line 334). -/
  | closeWindow (title : String) : Effect
deriving DecidableEq

/-- Whether an effect is a force-kill (`taskkill`) invocation. -/
def Effect.isForceKill : Effect → Bool
  | .taskkill _ => true
  | _ => false

/-- Environment of one `CloseApp` call: the titles of the currently visible
top-level windows, and whether each `try`-wrapped OS interaction raises.
`windowLogicRaises` covers any exception inside the window-enumeration
block of lines 285-340 (e.g. the `ctypes.windll` import failing). -/
structure CloseEnv where
  windows : List String
  shellQuitRaises : Bool
  settingsKillRaises : Bool
  windowLogicRaises : Bool
  forceKillRaises : Bool

/-- The `critical_processes` list of Automation.py line 344. -/
def critical_processes : List String :=
  ["explorer", "winlogon", "services", "csrss", "lsass", "smss", "svchost",
   "dwm", "chrome", "firefox", "msedge", "lockapp", "searchui", "python", "py"]

/-- The browser markers of Automation.py line 316. -/
def browsers : List String := ["chrome", "edge", "firefox", "brave", "opera"]

/-- Per-window decision of lines 310-334: for a browser window when the
argument does not itself name a browser, send ctrl+w to the focused window;
otherwise post WM_CLOSE.  `title0` is the raw window title; the code
lowercases it before matching. -/
def closeAction (app title0 : String) : Effect :=
  let title := pyLower title0
  let is_browser := browsers.any fun b => strContains title b
  if is_browser && !strContains app "chrome" && !strContains app "edge"
      && !strContains app "firefox" && !strContains app "browser" then
    Effect.closeTab title
  else
    Effect.closeWindow title

/-- The force-kill fallback of lines 342-356: refuse members of
`critical_processes`, `taskkill` arguments ending in ".exe", and return
`False` otherwise.  An exception from `subprocess.run` is caught and
returns `False` (lines 355-356). -/
def forceKillFallback (env : CloseEnv) (app : String) : Bool × List Effect :=
  if app ∈ critical_processes then (false, [])
  else if strEndsWith app ".exe" then
    if env.forceKillRaises then (false, []) else (true, [Effect.taskkill app])
  else (false, [])

/-- Body of `CloseApp` after the normalization `app = app.lower().strip()`
of line 257.  Branches in source order: the File Explorer special case
(lines 260-269), the Settings special case (lines 272-278, whose exception
is swallowed by `pass` so control falls through), the window-enumeration
block (lines 285-340, any exception falling through to the fallback), and
the force-kill fallback (lines 342-356). -/
def CloseAppNorm (env : CloseEnv) (app : String) : Bool × List Effect :=
  if strContains app "file explorer" || app == "explorer" then
    if env.shellQuitRaises then (false, []) else (true, [Effect.shellQuitExplorer])
  else if strContains app "settings" && !env.settingsKillRaises then
    (true, [Effect.taskkill "SystemSettings.exe"])
  else if env.windowLogicRaises then
    forceKillFallback env app
  else
    let found := env.windows.filter fun t => strContains (pyLower t) app
    if found.isEmpty then forceKillFallback env app
    else (true, found.map (closeAction app))

/-- Model of `CloseApp` (Automation.py lines 251-356): result flag and the list of
OS effects issued. -/
def CloseApp (env : CloseEnv) (app0 : String) : Bool × List Effect :=
  CloseAppNorm env (pyStrip (pyLower app0))

theorem closeAction_ne_taskkill (app t s : String) :
    closeAction app t ≠ Effect.taskkill s := by
  simp only [closeAction]
  split <;> simp

/-- C1: for every argument whose lowercased and trimmed form is a member of
the `critical_processes` list, `CloseApp` never issues a `taskkill` for that
name on any path, and the force-kill fallback returns `False` (with no
effect) for that argument. -/
theorem close_protected_never_taskkilled (env : CloseEnv) (arg : String)
    (h : pyStrip (pyLower arg) ∈ critical_processes) :
    Effect.taskkill (pyStrip (pyLower arg)) ∉ (CloseApp env arg).2 ∧
    forceKillFallback env (pyStrip (pyLower arg)) = (false, []) := by
  refine ⟨?_, by simp [forceKillFallback, h]⟩
  simp only [CloseApp, CloseAppNorm]
  split
  · split <;> simp
  · split
    · dsimp only
      intro hmem
      rw [List.mem_singleton] at hmem
      injection hmem with ha
      rw [ha] at h
      exact absurd h (by decide)
    · split
      · simp [forceKillFallback, h]
      · split
        · simp [forceKillFallback, h]
        · intro hmem
          simp only [List.mem_map] at hmem
          obtain ⟨t, _, heq⟩ := hmem
          exact closeAction_ne_taskkill _ t _ heq

/-- C1 witness: the argument "Chrome " normalizes to the protected name
"chrome", is never task-killed, and the fallback refuses it. -/
theorem close_protected_never_taskkilled_witness :
    (pyStrip (pyLower "Chrome ") ∈ critical_processes) ∧
    (Effect.taskkill (pyStrip (pyLower "Chrome "))
        ∉ (CloseApp ⟨[], false, false, false, false⟩ "Chrome ").2 ∧
     forceKillFallback ⟨[], false, false, false, false⟩ (pyStrip (pyLower "Chrome "))
        = (false, [])) :=
  ⟨by decide,
   close_protected_never_taskkilled ⟨[], false, false, false, false⟩ "Chrome " (by decide)⟩

/-- C2: the ".exe" alias of the protected name "chrome" defeats the
protection: with no matching window, `CloseApp "chrome.exe"` issues
`taskkill /f /im chrome.exe` (force-killing the browser process whose name
"chrome" is in `critical_processes`) and reports success. -/
theorem chrome_exe_alias_force_killed :
    CloseApp ⟨[], false, false, false, false⟩ "chrome.exe"
      = (true, [Effect.taskkill "chrome.exe"]) ∧
    "chrome" ∈ critical_processes := by decide

/-- C4: against a single window titled "YouTube - Chrome", argument
"youtube" produces exactly a close-tab keystroke to that window (no
close-window message), while argument "chrome" produces exactly a
close-window (WM_CLOSE) message. -/
theorem close_youtube_tab_chrome_window (env : CloseEnv)
    (hw : env.windows = ["YouTube - Chrome"])
    (hr : env.windowLogicRaises = false) :
    CloseApp env "youtube" = (true, [Effect.closeTab "youtube - chrome"]) ∧
    CloseApp env "chrome" = (true, [Effect.closeWindow "youtube - chrome"]) := by
  obtain ⟨w, b1, b2, b3, b4⟩ := env
  dsimp only at hw hr
  subst hw
  subst hr
  refine ⟨?_, ?_⟩ <;> (cases b1 <;> cases b2 <;> cases b4 <;> decide)

/-- C4 witness: the concrete environment holding only the window
"YouTube - Chrome". -/
theorem close_youtube_tab_chrome_window_witness :
    CloseApp ⟨["YouTube - Chrome"], false, false, false, false⟩ "youtube"
      = (true, [Effect.closeTab "youtube - chrome"]) ∧
    CloseApp ⟨["YouTube - Chrome"], false, false, false, false⟩ "chrome"
      = (true, [Effect.closeWindow "youtube - chrome"]) :=
  close_youtube_tab_chrome_window ⟨["YouTube - Chrome"], false, false, false, false⟩ rfl rfl

/-- C8: every argument containing "file explorer" (or equal to "explorer")
after normalization takes the shell-integration branch: `CloseApp` returns
that branch's result directly and no force-kill (`taskkill`) effect is ever
issued, whatever the shell call or window enumeration would do. -/
theorem close_file_explorer_shell_branch (env : CloseEnv) (arg : String)
    (h : strContains (pyStrip (pyLower arg)) "file explorer" = true
         ∨ pyStrip (pyLower arg) = "explorer") :
    CloseApp env arg
      = (if env.shellQuitRaises then (false, []) else (true, [Effect.shellQuitExplorer])) ∧
    (CloseApp env arg).2.all (fun e => !e.isForceKill) = true := by
  have hc : (strContains (pyStrip (pyLower arg)) "file explorer"
      || pyStrip (pyLower arg) == "explorer") = true := by
    rcases h with h | h
    · simp [h]
    · simp [h]
  have h1 : CloseApp env arg
      = (if env.shellQuitRaises then (false, []) else (true, [Effect.shellQuitExplorer])) := by
    simp only [CloseApp, CloseAppNorm, hc]
    simp
  refine ⟨h1, ?_⟩
  rw [h1]
  split <;> simp [Effect.isForceKill]

/-- C8 witness: the argument "File Explorer" takes the shell branch and
issues no force-kill. -/
theorem close_file_explorer_shell_branch_witness :
    CloseApp ⟨[], false, false, false, false⟩ "File Explorer"
      = (true, [Effect.shellQuitExplorer]) ∧
    (CloseApp ⟨[], false, false, false, false⟩ "File Explorer").2.all
        (fun e => !e.isForceKill) = true :=
  close_file_explorer_shell_branch ⟨[], false, false, false, false⟩ "File Explorer"
    (Or.inl (by decide))

/-!
## Command Parser & Dispatcher (`translate_and_execute`, lines 456-516)
and batch entry point (`Automation`, lines 518-525)
-/

/-- One scheduled unit of work (one `asyncio.to_thread(...)` task). -/
inductive WorkUnit where
  | openApp (arg : String)
  | closeApp (arg : String)
  | playYoutube (q : String)
  | content (t : String)
  | youtubeSearch (t : String)
  | googleSearch (q : String)
  | execCommand (c : String)
deriving DecidableEq

/-- The embedded hardware keywords of line 502. -/
def sysKeywords : List String :=
  ["volume", "brightness", "mute", "unmute", "lock", "shutdown", "restart",
   "turn off", "sleep"]

/-- Dispatch of a single command string (the body of the `for` loop at
lines 463-507).  Note the source's handling of "open it" (line 466): the
statement `if "open it" in command: pass` is a no-op whose body does not
guard the following `if "open file " in command: ... else: ...`, so a
command containing "open it" still reaches that `else` branch. -/
def translateOne (command0 : String) : List WorkUnit :=
  let command := pyLower command0
  if strStarts command "open " then
    if strContains command "open file " then []
    else [WorkUnit.openApp (removeLeading command "open ")]
  else if strStarts command "general " then []
  else if strStarts command "close " then
    [WorkUnit.closeApp (removeLeading command "close ")]
  else if strStarts command "play " then
    [WorkUnit.playYoutube (removeLeading command "play ")]
  else if strStarts command "content " then
    [WorkUnit.content (removeLeading command "content ")]
  else if strStarts command "youtube search " then
    [WorkUnit.youtubeSearch (removeLeading command "youtube search ")]
  else if strStarts command "google search " then
    [WorkUnit.googleSearch (removeLeading command "google search ")]
  else if strStarts command "system " then
    [WorkUnit.execCommand (removeLeading command "system ")]
  else if sysKeywords.any (fun k => strContains command k) then
    [WorkUnit.execCommand command]
  else []

/-- The work units scheduled by `translate_and_execute` for a batch, in
order (lines 461-510). -/
def translate_and_execute (commands : List String) : List WorkUnit :=
  commands.flatMap translateOne

/-- Results of one batch: each scheduled unit is run and produces its own
boolean outcome (`asyncio.gather` at line 510); `exec` gives the outcome of
each unit. -/
def runBatchResults (exec : WorkUnit → Bool) (commands : List String) : List Bool :=
  (translate_and_execute commands).map exec

/-- The public entry point `Automation` (lines 518-525): it drains the
results of `translate_and_execute` and returns `True` unconditionally. -/
def Automation (exec : WorkUnit → Bool) (commands : List String) : Bool :=
  let _results := runBatchResults exec commands
  true

/-- C3: contrary to the skip comment in the source, the command "open it"
is not suppressed: the dispatcher schedules the unit `OpenApp "it"` for it. -/
theorem open_it_schedules_openapp :
    translate_and_execute ["open it"] = [WorkUnit.openApp "it"] := by decide

/-- C9: the batch entry point returns `True` for every batch and every
assignment of per-unit outcomes, including all-failing ones: the batch
result is independent of the units' individual results. -/
theorem automation_always_true (exec : WorkUnit → Bool) (commands : List String) :
    Automation exec commands = true := rfl

/-!
## System Control Unit (`ExecuteCommand` and `adjust_brightness`,
lines 358-450)
-/

/-- The effect selected by the command router of lines 424-448. -/
inductive SysAction where
  | mute
  | unmute
  | volumeUp
  | volumeDown
  /-- Calling `adjust_brightness change` with the given step (lines 433-436). -/
  | brightness (change : Int)
  | suspend
  | turnOn
  | lock
  | shutdown
  | restart
  | unknown
deriving DecidableEq

/-- The substring-keyword router of `ExecuteCommand` (lines 424-448),
with the source's branch order. -/
def ExecuteCommandRoute (command : String) : SysAction :=
  if strContains command "mute" then SysAction.mute
  else if strContains command "unmute" then SysAction.unmute
  else if strContains command "increase volume" || strContains command "volume up" then
    SysAction.volumeUp
  else if strContains command "decrease volume" || strContains command "volume down" then
    SysAction.volumeDown
  else if strContains command "increase brightness" || strContains command "brightness up" then
    SysAction.brightness 10
  else if strContains command "decrease brightness" || strContains command "brightness down" then
    SysAction.brightness (-10)
  else if strContains command "turn off" || strContains command "sleep" then
    SysAction.suspend
  else if strContains command "turn on" then SysAction.turnOn
  else if strContains command "lock" then SysAction.lock
  else if strContains command "shutdown" then SysAction.shutdown
  else if strContains command "restart" then SysAction.restart
  else SysAction.unknown

/-- Value of a nonempty all-digit character list, most significant first. -/
def digitsToNat (cs : List Char) : Nat :=
  cs.foldl (fun acc c => acc * 10 + (c.toNat - '0'.toNat)) 0

/-- Python's `int(s)` on an already-stripped string, for the forms the
brightness query can yield: an optional sign followed by decimal digits
(digit-grouping underscores are not modelled).  Returns `none` where
`int(s)` raises `ValueError`. -/
def parsePyInt (s : String) : Option Int :=
  match s.toList with
  | [] => none
  | '+' :: rest =>
      if !rest.isEmpty && rest.all Char.isDigit then some (Int.ofNat (digitsToNat rest))
      else none
  | '-' :: rest =>
      if !rest.isEmpty && rest.all Char.isDigit then some (-(Int.ofNat (digitsToNat rest)))
      else none
  | cs =>
      if cs.all Char.isDigit then some (Int.ofNat (digitsToNat cs))
      else none

/-- Model of `adjust_brightness` (lines 397-422) as a function of the text produced
by the brightness query and of the step `change`: `some v` means the
clamped value `v` is written back by `WmiSetBrightness`, `none` means the
function returns on the error path without any write-back. -/
def adjust_brightness (stdout : String) (change : Int) : Option Int :=
  if pyStrip stdout = "" then none
  else
    match parsePyInt (pyStrip stdout) with
    | none => none
    | some current => some (max 0 (min 100 (current + change)))

/-- C5: whenever a command routes to a brightness adjustment with step `c`
(10 for "brightness up", -10 for "brightness down") and the queried current
level parses as `current`, the value written back is exactly
`max 0 (min 100 (current + c))`. -/
theorem brightness_clamped (stdout command : String) (c current : Int)
    (_ : ExecuteCommandRoute command = SysAction.brightness c)
    (hparse : parsePyInt (pyStrip stdout) = some current) :
    adjust_brightness stdout c = some (max 0 (min 100 (current + c))) := by
  have hne : ¬(pyStrip stdout = "") := by
    intro h
    rw [h] at hparse
    exact Option.noConfusion hparse
  simp [adjust_brightness, hne, hparse]

/-- C5 witness: current 95 with "brightness up" is written back as 100, and
current 5 with "brightness down" as 0. -/
theorem brightness_clamped_witness :
    adjust_brightness "95" 10 = some 100 ∧ adjust_brightness "5" (-10) = some 0 := by
  have h1 := brightness_clamped "95" "brightness up" 10 95 (by decide) (by decide)
  have h2 := brightness_clamped "5" "brightness down" (-10) 5 (by decide) (by decide)
  refine ⟨?_, ?_⟩
  · rw [h1]; norm_num [max_def, min_def]
  · rw [h2]; norm_num [max_def, min_def]

/-- C6: if the brightness query output is empty after stripping, or does
not parse as an integer, `adjust_brightness` performs no write-back. -/
theorem brightness_error_no_write (stdout : String) (c : Int)
    (h : pyStrip stdout = "" ∨ parsePyInt (pyStrip stdout) = none) :
    adjust_brightness stdout c = none := by
  rcases h with h | h
  · simp [adjust_brightness, h]
  · by_cases he : pyStrip stdout = ""
    · simp [adjust_brightness, he]
    · simp [adjust_brightness, he, h]

/-- C6 witness: non-numeric query output leads to no write-back. -/
theorem brightness_error_no_write_witness :
    (pyStrip "garbage" = "" ∨ parsePyInt (pyStrip "garbage") = none) ∧
    adjust_brightness "garbage" 10 = none :=
  ⟨Or.inr (by decide), brightness_error_no_write "garbage" 10 (Or.inr (by decide))⟩

/-!
## Application Resolver (`OpenApp`, Automation.py lines 170-249)
-/

/-- Outcome of a Python call as seen by its caller: it either raises an
exception or returns a boolean. -/
inductive PyResult where
  | raised
  | ok (b : Bool)
deriving DecidableEq

/-- Outcome of the `sess.get(search_url, ...)` call of line 203: the
request either raises (connection errors and the like) or returns a
response with a status code and body. -/
inductive FetchOutcome where
  | raises
  | status (code : Nat) (body : String)
deriving DecidableEq

/-- Environment of one `OpenApp` call.  `extract h` is the first result
link that `extract_link` finds in the page `h` (`none` when the result of
the Python function is `None` or the empty list).  `chromeLaunchRaises`
models an exception in the `try` body of `open_in_chrome`
(lines 213-231), and `handlerWebopenRaises` one in the `webbrowser.open`
call of its `except` handler (line 234). -/
structure OpenEnv where
  appopenSucceeds : Bool
  startfileRaises : Bool
  fetch : FetchOutcome
  extract : String → Option String
  chromeLaunchRaises : Bool
  handlerWebopenRaises : Bool

/-- The explicit File Explorer aliases of line 178. -/
def explorer_aliases : List String :=
  ["file explorer", "file manager", "my computer", "this pc", "explorer"]

/-- Model of `google_search` (lines 198-209): the outer `none` is the
`sess.get` exception propagating out of the call; otherwise the result is
the response text for a 200 status and Python `None` for any other
status. -/
def google_search (env : OpenEnv) : Option (Option String) :=
  match env.fetch with
  | FetchOutcome.raises => none
  | FetchOutcome.status code body =>
      some (if code = 200 then some body else none)

/-- Model of `open_in_chrome` (lines 212-235): the `try` body returns `True` on
every non-raising path; its `except` handler retries with
`webbrowser.open` and returns `True` unless that call raises in turn. -/
def open_in_chrome (env : OpenEnv) : PyResult :=
  if env.chromeLaunchRaises then
    if env.handlerWebopenRaises then PyResult.raised else PyResult.ok true
  else PyResult.ok true

/-- The outer `try` body of `OpenApp` (lines 176-183): the explorer
shortcut (whose `os.startfile` may raise) or the `appopen` call; `true`
means it returned without raising. -/
def primaryOk (env : OpenEnv) (app : String) : Bool :=
  if app ∈ explorer_aliases then !env.startfileRaises else env.appopenSucceeds

/-- Model of `OpenApp` (lines 170-249).  Any exception in the outer `try` body
enters the `except` fallback, whose own calls are not guarded by any
further handler, so an exception inside `google_search` or
`open_in_chrome` propagates to the caller (`PyResult.raised`). -/
def OpenApp (env : OpenEnv) (app : String) : PyResult :=
  if primaryOk env app then PyResult.ok true
  else
    match google_search env with
    | none => PyResult.raised
    | some (some html) =>
        match env.extract html with
        | some _link => open_in_chrome env
        | none => open_in_chrome env
    | some none => open_in_chrome env

/-- C7 counterexample: when the installed-application lookup fails and the
web fetch raises, the exception propagates out of `OpenApp`: the resolver
does raise to its caller. -/
theorem openapp_raises_on_fetch_exception :
    OpenApp ⟨false, false, FetchOutcome.raises, fun _ => none, false, false⟩ "spotify"
      = PyResult.raised := by decide

/-- C7 amended: exceptions in the primary lookup are caught and divert to
the web fallback, and `OpenApp` returns `True` whenever the fallback chain
itself raises no exception — that is, whenever the web fetch does not
raise and the browser launch and its URL-open recovery do not both raise. -/
theorem openapp_no_raise_amended (env : OpenEnv) (app : String)
    (hf : env.fetch ≠ FetchOutcome.raises)
    (hc : env.chromeLaunchRaises = false ∨ env.handlerWebopenRaises = false) :
    OpenApp env app = PyResult.ok true := by
  have hoc : open_in_chrome env = PyResult.ok true := by
    rcases hc with h | h
    · simp [open_in_chrome, h]
    · cases hcl : env.chromeLaunchRaises <;> simp [open_in_chrome, hcl, h]
  simp only [OpenApp]
  split
  · rfl
  · rcases henv : env.fetch with _ | ⟨code, body⟩
    · exact absurd henv hf
    · simp only [google_search, henv]
      by_cases h200 : code = 200
      · simp only [h200, if_pos]
        cases henv2 : env.extract body <;> simp [henv2, hoc]
      · simp [h200, hoc]

/-- C7 amended witness: a failed app lookup with a reachable network and a
working browser launch returns `True`. -/
theorem openapp_no_raise_amended_witness :
    OpenApp ⟨false, false, FetchOutcome.status 200 "page", fun _ => none, false, false⟩
      "spotify" = PyResult.ok true :=
  openapp_no_raise_amended
    ⟨false, false, FetchOutcome.status 200 "page", fun _ => none, false, false⟩
    "spotify" (by decide) (Or.inl rfl)

/-- C10: on every execution path of `OpenApp` that does not raise, the
returned boolean is `True`; the `Failure` outcome is unreachable. -/
theorem openapp_ok_implies_true (env : OpenEnv) (app : String) (b : Bool)
    (h : OpenApp env app = PyResult.ok b) : b = true := by
  have hoc : ∀ c : Bool, open_in_chrome env = PyResult.ok c → c = true := by
    intro c hc
    unfold open_in_chrome at hc
    split at hc
    · split at hc
      · exact PyResult.noConfusion hc
      · injection hc with h1
        exact h1.symm
    · injection hc with h1
      exact h1.symm
  simp only [OpenApp] at h
  split at h
  · injection h with h1
    exact h1.symm
  · rcases henv : env.fetch with _ | ⟨code, body⟩ <;>
      simp only [google_search, henv] at h
    · exact PyResult.noConfusion h
    · by_cases h200 : code = 200
      · simp only [h200, if_pos] at h
        cases henv2 : env.extract body <;> simp only [henv2] at h <;> exact hoc b h
      · simp only [if_neg h200] at h
        exact hoc b h

/-- C10 witness: a successful primary lookup yields `True`, instantiating
the theorem at a concrete run. -/
theorem openapp_ok_implies_true_witness :
    OpenApp ⟨true, false, FetchOutcome.raises, fun _ => none, false, false⟩ "notepad"
      = PyResult.ok true ∧ true = true :=
  ⟨by decide,
   openapp_ok_implies_true
     ⟨true, false, FetchOutcome.raises, fun _ => none, false, false⟩
     "notepad" true (by decide)⟩
